import Mathlib

/-!
Verification of the transcription workflow script
(`src/transcribe_raw_originals.py`): a shallow embedding of the
upload / submit / poll / download / extract pipeline, with theorems about
the job poller, the transcript extractor and the workflow driver.

External AWS calls are modelled by their observable outcomes: each call
either returns a response value or raises a `ClientError`, captured in an
environment record.  The local filesystem is a partial map from paths to
file contents.
-/

namespace Transcribe

/-- A JSON value, as produced by Python's `json.load`. -/
inductive Json where
  | null : Json
  | bool (b : Bool) : Json
  | num (n : Int) : Json
  | str (s : String) : Json
  | arr (elems : List Json) : Json
  | obj (fields : List (String × Json)) : Json

/-- The Python exceptions the script can raise while extracting. -/
inductive PyErr where
  | keyError : PyErr
  | indexError : PyErr
  | typeError : PyErr
  | fileNotFound : PyErr
  | jsonDecodeError : PyErr
deriving DecidableEq, Repr

/-- Python subscripting `j[k]` with a string key: succeeds on a dict that
has the key, raises `KeyError` on a dict that lacks it, `TypeError` on
any non-dict value. -/
def pyGetKey (j : Json) (k : String) : Except PyErr Json :=
  match j with
  | .obj fields =>
    match fields.lookup k with
    | some v => .ok v
    | none => .error .keyError
  | _ => .error .typeError

/-- Python subscripting `j[0]`: first element of a list (`IndexError` when
empty), first character of a string (`IndexError` when empty), `KeyError`
on a dict (JSON dicts have string keys, never the int key `0`),
`TypeError` otherwise. -/
def pyIndex0 (j : Json) : Except PyErr Json :=
  match j with
  | .arr [] => .error .indexError
  | .arr (x :: _) => .ok x
  | .str s =>
    match s.data with
    | [] => .error .indexError
    | c :: _ => .ok (.str ⟨[c]⟩)
  | .obj _ => .error .keyError
  | _ => .error .typeError

/-- `data['results']['transcripts']`, the first two subscripts of the
extractor. -/
def resultsTranscripts (data : Json) : Except PyErr Json :=
  match pyGetKey data "results" with
  | .error e => .error e
  | .ok r => pyGetKey r "transcripts"

/-- `data['results']['transcripts'][0]['transcript']`, the full subscript
chain of `extract_raw_transcript`. -/
def transcriptPath (data : Json) : Except PyErr Json :=
  match resultsTranscripts data with
  | .error e => .error e
  | .ok t =>
    match pyIndex0 t with
    | .error e => .error e
    | .ok t0 => pyGetKey t0 "transcript"

/-- Content of a local file: either a JSON document or plain text. -/
inductive FileContent where
  | json (j : Json) : FileContent
  | text (s : String) : FileContent

/-- The local filesystem: a partial map from paths to contents. -/
def FS : Type := String → Option FileContent

/-- Write (create or overwrite) a file. -/
def fsWrite (fs : FS) (p : String) (c : FileContent) : FS :=
  fun q => if q = p then some c else fs q

/-- `os.remove`: delete a file. -/
def fsRemove (fs : FS) (p : String) : FS :=
  fun q => if q = p then none else fs q

/-- `json.load` on an opened file: the parsed document when the file holds
JSON, an error when the file is missing or not valid JSON. -/
def jsonLoad (fs : FS) (path : String) : Except PyErr Json :=
  match fs path with
  | none => .error .fileNotFound
  | some (.json j) => .ok j
  | some (.text _) => .error .jsonDecodeError

/-- `extract_raw_transcript(input_file, output_file)`: load the JSON
document, read `data['results']['transcripts'][0]['transcript']`, write it
to the output file.  Any exception propagates (first component `some e`);
`open(output_file, 'w')` truncates the output file before `f.write`, so a
`TypeError` from writing a non-string still leaves an empty file. -/
def extract_raw_transcript (fs : FS) (input_file output_file : String) :
    Option PyErr × FS :=
  match jsonLoad fs input_file with
  | .error e => (some e, fs)
  | .ok data =>
    match transcriptPath data with
    | .error e => (some e, fs)
    | .ok transcript =>
      match transcript with
      | .str s => (none, fsWrite fs output_file (.text s))
      | _ => (some .typeError, fsWrite fs output_file (.text ""))

/-- A `botocore` `ClientError`, carrying only its message. -/
structure ClientError where
  msg : String
deriving DecidableEq

/-- Response of `transcribe_client.start_transcription_job`: the
`TranscriptionJob.TranscriptionJobName` field. -/
structure StartJobResponse where
  transcriptionJobName : String
deriving DecidableEq

/-- Response of `transcribe_client.get_transcription_job`: the
`TranscriptionJob.TranscriptionJobStatus` field. -/
structure StatusResponse where
  transcriptionJobStatus : String
deriving DecidableEq

/-- `upload_file`: returns `True` when the S3 call succeeds, catches a
`ClientError` and returns `False`. -/
def upload_file (call : Except ClientError Unit) : Bool :=
  match call with
  | .ok _ => true
  | .error _ => false

/-- `start_transcription_job`: returns the job name from the service
response on success, catches a `ClientError` and returns `None`. -/
def start_transcription_job (call : Except ClientError StartJobResponse) :
    Option String :=
  match call with
  | .ok response => some response.transcriptionJobName
  | .error _ => none

/-- `get_transcription_job_status`: returns the status from the service
response on success, catches a `ClientError` and returns `None`. -/
def get_transcription_job_status (call : Except ClientError StatusResponse) :
    Option String :=
  match call with
  | .ok response => some response.transcriptionJobStatus
  | .error _ => none

/-- `download_file`: returns `True` when the S3 call succeeds, catches a
`ClientError` and returns `False`. -/
def download_file (call : Except ClientError Unit) : Bool :=
  match call with
  | .ok _ => true
  | .error _ => false

/-- What one iteration of the wait loop in `main` does with an observed
status: `break` on `'COMPLETED'`, `return` on `'FAILED'`, otherwise
`time.sleep(30)` and loop again. -/
inductive LoopAction where
  | exitSuccess : LoopAction
  | exitFailure : LoopAction
  | sleepRetry (seconds : Nat) : LoopAction
deriving DecidableEq

/-- The branch taken by the wait loop body on an observed status. -/
def pollStep (status : Option String) : LoopAction :=
  if status = some "COMPLETED" then .exitSuccess
  else if status = some "FAILED" then .exitFailure
  else .sleepRetry 30

/-- Observable external actions of one run, in order. -/
inductive Event where
  | s3Upload (bucket key : String) : Event
  | submitJob (name uri outputBucket outputKey : String) : Event
  | queryStatus (name : String) : Event
  | sleep (seconds : Nat) : Event
  | s3Download (bucket key localPath : String) : Event
  | deleteLocal (path : String) : Event
  | deleteRemote (bucket key : String) : Event
deriving DecidableEq

/-- `true` exactly on `sleep` events. -/
def Event.isSleep : Event → Bool
  | .sleep _ => true
  | _ => false

/-- `true` exactly on `queryStatus` events. -/
def Event.isQuery : Event → Bool
  | .queryStatus _ => true
  | _ => false

/-- `true` exactly on `s3Download` events. -/
def Event.isDownload : Event → Bool
  | .s3Download _ _ _ => true
  | _ => false

/-- `true` exactly on `submitJob` events. -/
def Event.isSubmit : Event → Bool
  | .submitJob _ _ _ _ => true
  | _ => false

/-- `true` exactly on `deleteLocal` events. -/
def Event.isLocalDelete : Event → Bool
  | .deleteLocal _ => true
  | _ => false

/-- `true` exactly on `deleteRemote` events: deletion of a remote object.
The script performs no such operation, so no run ever emits one. -/
def Event.isRemoteDelete : Event → Bool
  | .deleteRemote _ _ => true
  | _ => false

/-- The `while True` wait loop of `main`, given the outcome of the k-th
`get_transcription_job` call.  Runs with fuel (the source loop is
unbounded); returns the trace of query/sleep events and `some true` on
`break` at `'COMPLETED'`, `some false` on `return` at `'FAILED'`, `none`
when the fuel runs out before a terminal status. -/
def pollLoop (name : String) (calls : Nat → Except ClientError StatusResponse) :
    Nat → Nat → List Event × Option Bool
  | 0, _ => ([], none)
  | fuel + 1, k =>
    match pollStep (get_transcription_job_status (calls k)) with
    | .exitSuccess => ([.queryStatus name], some true)
    | .exitFailure => ([.queryStatus name], some false)
    | .sleepRetry d =>
      let rest := pollLoop name calls fuel (k + 1)
      (.queryStatus name :: .sleep d :: rest.1, rest.2)

/-- Index of the last occurrence of a character in a list, if any. -/
def lastIdxOf (cs : List Char) (c : Char) : Option Nat :=
  match cs with
  | [] => none
  | x :: xs =>
    match lastIdxOf xs c with
    | some i => some (i + 1)
    | none => if x = c then some 0 else none

/-- `os.path.basename`: everything after the last `'/'` (the whole path
when there is none). -/
def basename (p : String) : String :=
  match lastIdxOf p.data '/' with
  | none => p
  | some i => ⟨p.data.drop (i + 1)⟩

/-- `os.path.splitext(p)[0]`: drop the extension at the last `'.'` that
lies after the last `'/'`, unless every character between them is a dot
(so a leading-dot name like `".bashrc"` keeps its dot). -/
def splitextRoot (p : String) : String :=
  let cs := p.data
  let sepBound : Nat :=
    match lastIdxOf cs '/' with
    | none => 0
    | some i => i + 1
  match lastIdxOf cs '.' with
  | none => p
  | some d =>
    if sepBound ≤ d ∧ ((cs.drop sepBound).take (d - sepBound)).any (fun ch => ch ≠ '.') then
      ⟨cs.take d⟩
    else p

/-- The hardcoded bucket literal `s3_bucket_name = 'sat-ddc'` in `main`. -/
def s3_bucket_name : String := "sat-ddc"

/-- `transcription_job_name = f"{os.path.splitext(file_name)[0]}_{timestamp}"`
where `file_name = os.path.basename(local_file_path)`. -/
def deriveJobName (local_file_path timestamp : String) : String :=
  splitextRoot (basename local_file_path) ++ "_" ++ timestamp

/-- Outcomes of the external calls one run can make, plus the JSON
document the service leaves in the output object (what a successful
download writes locally). -/
structure Env where
  uploadCall : Except ClientError Unit
  submitCall : Except ClientError StartJobResponse
  statusCalls : Nat → Except ClientError StatusResponse
  downloadCall : Except ClientError Unit
  resultDoc : Json

/-- How a run of `main` ended. -/
inductive Outcome where
  | bucketUnset : Outcome
  | uploadFailed : Outcome
  | submitFailed : Outcome
  | outOfFuel : Outcome
  | jobFailed : Outcome
  | downloadFailed : Outcome
  | extractError (e : PyErr) : Outcome
  | success : Outcome
deriving DecidableEq

/-- Result of a run of `main`: outcome, final filesystem, external events. -/
structure MainResult where
  outcome : Outcome
  fs : FS
  events : List Event

/-- The `main` driver.  `envVars` models the process environment (never
read by the script); `timestamp` is `datetime.now().strftime(...)`;
`fuel` bounds the unbounded wait loop; `fs` is the initial filesystem. -/
def mainRun (envVars : String → Option String) (input_file output_file timestamp : String)
    (env : Env) (fuel : Nat) (fs : FS) : MainResult :=
  let local_file_path := input_file
  let output_file_path := output_file
  if s3_bucket_name = "" then ⟨.bucketUnset, fs, []⟩
  else
    let file_name := basename local_file_path
    let s3_object_name := "raw_audio/" ++ file_name
    let transcription_job_name := deriveJobName local_file_path timestamp
    let transcription_output_key :=
      "raw_audio_transcriptions/" ++ transcription_job_name ++ ".json"
    let uploadEv := Event.s3Upload s3_bucket_name s3_object_name
    match upload_file env.uploadCall with
    | false => ⟨.uploadFailed, fs, [uploadEv]⟩
    | true =>
      let s3_uri := "s3://" ++ s3_bucket_name ++ "/" ++ s3_object_name
      let submitEv := Event.submitJob transcription_job_name s3_uri
        s3_bucket_name transcription_output_key
      match start_transcription_job env.submitCall with
      | none => ⟨.submitFailed, fs, [uploadEv, submitEv]⟩
      | some job_name =>
        match pollLoop job_name env.statusCalls fuel 0 with
        | (pollEvs, none) => ⟨.outOfFuel, fs, uploadEv :: submitEv :: pollEvs⟩
        | (pollEvs, some false) => ⟨.jobFailed, fs, uploadEv :: submitEv :: pollEvs⟩
        | (pollEvs, some true) =>
          let temp_transcription_path := output_file_path ++ ".json"
          let downloadEv := Event.s3Download s3_bucket_name
            transcription_output_key temp_transcription_path
          match download_file env.downloadCall with
          | false => ⟨.downloadFailed, fs, uploadEv :: submitEv :: pollEvs ++ [downloadEv]⟩
          | true =>
            match extract_raw_transcript
                (fsWrite fs (output_file_path ++ ".json") (.json env.resultDoc))
                (output_file_path ++ ".json") output_file_path with
            | (some e, fs2) =>
              ⟨.extractError e, fs2, uploadEv :: submitEv :: pollEvs ++ [downloadEv]⟩
            | (none, fs2) =>
              ⟨.success, fsRemove fs2 (output_file_path ++ ".json"),
                uploadEv :: submitEv :: pollEvs ++
                  [downloadEv, .deleteLocal temp_transcription_path]⟩

/-- The document `{"results":{"transcripts":[{"transcript":"hello world"}]}}`. -/
def helloDoc : Json :=
  .obj [("results", .obj [("transcripts",
    .arr [.obj [("transcript", .str "hello world")]])])]

/-- A filesystem holding `helloDoc` at `"result.json"` and nothing else. -/
def helloFS : FS :=
  fun p => if p = "result.json" then some (.json helloDoc) else none

/-- Decides whether a document lacks the nested path
`results.transcripts`, or has an empty transcripts list there. -/
def lacksOrEmptyTranscripts (data : Json) : Bool :=
  match resultsTranscripts data with
  | .error _ => true
  | .ok (.arr []) => true
  | .ok _ => false

end Transcribe

namespace Transcribe

/-- C2: `extract_raw_transcript` on a file holding
`{"results":{"transcripts":[{"transcript":"hello world"}]}}` raises no
error and writes an output file whose content is exactly the string
`"hello world"`. -/
theorem extract_hello_world :
    (extract_raw_transcript helloFS "result.json" "out.txt").1 = none ∧
    (extract_raw_transcript helloFS "result.json" "out.txt").2 "out.txt" =
      some (.text "hello world") := by
  constructor <;> rfl

/-- Helper for C3: when the document lacks `results.transcripts` or its
transcripts list is empty, the subscript chain raises an error. -/
theorem transcriptPath_error_of_lacks {data : Json}
    (h : lacksOrEmptyTranscripts data = true) :
    ∃ e, transcriptPath data = .error e := by
  unfold lacksOrEmptyTranscripts at h
  unfold transcriptPath
  match hrt : resultsTranscripts data with
  | .error e => exact ⟨e, rfl⟩
  | .ok t =>
    rw [hrt] at h
    match t with
    | .arr [] => exact ⟨.indexError, rfl⟩
    | .arr (x :: xs) => simp at h
    | .null => simp at h
    | .bool b => simp at h
    | .num n => simp at h
    | .str s => simp at h
    | .obj f => simp at h

/-- C3: on every JSON document that lacks the nested path
`results.transcripts` (or whose transcripts list is empty),
`extract_raw_transcript` propagates a structural error and leaves the
filesystem unchanged — in particular no output file is written. -/
theorem extract_error_on_missing_path (fs : FS) (input_file output_file : String)
    (data : Json) (hread : fs input_file = some (.json data))
    (hlack : lacksOrEmptyTranscripts data = true) :
    (extract_raw_transcript fs input_file output_file).1.isSome = true ∧
    (extract_raw_transcript fs input_file output_file).2 = fs := by
  obtain ⟨e, he⟩ := transcriptPath_error_of_lacks hlack
  simp only [extract_raw_transcript, jsonLoad, hread, he]
  exact ⟨rfl, trivial⟩

/-- Helper: the loop body breaks exactly on `'COMPLETED'`. -/
theorem pollStep_completed : pollStep (some "COMPLETED") = .exitSuccess := rfl

/-- Helper: the loop body returns exactly on `'FAILED'`. -/
theorem pollStep_failed : pollStep (some "FAILED") = .exitFailure := rfl

/-- Helper: on any non-terminal observation the loop body sleeps 30
seconds and retries. -/
theorem pollStep_other {st : Option String} (h1 : st ≠ some "COMPLETED")
    (h2 : st ≠ some "FAILED") : pollStep st = .sleepRetry 30 := by
  simp [pollStep, h1, h2]

/-- Helper: one unfolding of the wait loop. -/
theorem pollLoop_succ (name : String)
    (calls : Nat → Except ClientError StatusResponse) (fuel k : Nat) :
    pollLoop name calls (fuel + 1) k =
      match pollStep (get_transcription_job_status (calls k)) with
      | .exitSuccess => ([.queryStatus name], some true)
      | .exitFailure => ([.queryStatus name], some false)
      | .sleepRetry d =>
        (.queryStatus name :: .sleep d :: (pollLoop name calls fuel (k + 1)).1,
          (pollLoop name calls fuel (k + 1)).2) := rfl

/-- Helper: a terminal exit of the wait loop pinpoints an index `i ≥ k`
whose observed status is the matching terminal one, all earlier observed
statuses are non-terminal, and the trace holds one 30-second sleep per
non-terminal observation and one query per observation. -/
theorem pollLoop_terminal (name : String)
    (calls : Nat → Except ClientError StatusResponse) :
    ∀ fuel k evs b, pollLoop name calls fuel k = (evs, some b) →
    ∃ i, k ≤ i ∧
      (b = true → get_transcription_job_status (calls i) = some "COMPLETED") ∧
      (b = false → get_transcription_job_status (calls i) = some "FAILED") ∧
      (∀ j, k ≤ j → j < i →
        get_transcription_job_status (calls j) ≠ some "COMPLETED" ∧
        get_transcription_job_status (calls j) ≠ some "FAILED") ∧
      evs.countP (fun e => e.isSleep) = i - k ∧
      evs.countP (fun e => e.isQuery) = i - k + 1 ∧
      (∀ d, Event.sleep d ∈ evs → d = 30) := by
  intro fuel
  induction fuel with
  | zero =>
    intro k evs b h
    simp [pollLoop] at h
  | succ n ih =>
    intro k evs b h
    rw [pollLoop_succ] at h
    by_cases hC : get_transcription_job_status (calls k) = some "COMPLETED"
    · rw [hC, pollStep_completed] at h
      obtain ⟨hevs, hb⟩ := Prod.mk.injEq .. ▸ h
      subst hevs
      have hb2 : b = true := (Option.some.inj hb).symm
      subst hb2
      refine ⟨k, le_refl k, fun _ => hC, ?_, ?_, ?_, ?_, ?_⟩
      · intro hb'; exact absurd hb' (by simp)
      · intro j hkj hjk; omega
      · simp [Event.isSleep]
      · simp [Event.isQuery]
      · intro d hd; simp at hd
    · by_cases hF : get_transcription_job_status (calls k) = some "FAILED"
      · rw [hF, pollStep_failed] at h
        obtain ⟨hevs, hb⟩ := Prod.mk.injEq .. ▸ h
        subst hevs
        have hb2 : b = false := (Option.some.inj hb).symm
        subst hb2
        refine ⟨k, le_refl k, ?_, fun _ => hF, ?_, ?_, ?_, ?_⟩
        · intro hb'; exact absurd hb' (by simp)
        · intro j hkj hjk; omega
        · simp [Event.isSleep]
        · simp [Event.isQuery]
        · intro d hd; simp at hd
      · rw [pollStep_other hC hF] at h
        obtain ⟨hevs, hb⟩ := Prod.mk.injEq .. ▸ h
        obtain ⟨i, hki, hcomp, hfail, hnon, hsleep, hquery, h30⟩ :=
          ih (k + 1) (pollLoop name calls n (k + 1)).1 b (by rw [← hb])
        refine ⟨i, by omega, hcomp, hfail, ?_, ?_, ?_, ?_⟩
        · intro j hkj hjk
          rcases Nat.eq_or_lt_of_le hkj with heq | hlt
          · rw [← heq]; exact ⟨hC, hF⟩
          · exact hnon j hlt hjk
        · rw [← hevs]
          rw [List.countP_cons, List.countP_cons, hsleep]
          simp [Event.isSleep, Event.isQuery]
          omega
        · rw [← hevs]
          rw [List.countP_cons, List.countP_cons, hquery]
          simp [Event.isSleep, Event.isQuery]
          omega
        · intro d hd
          rw [← hevs] at hd
          simp only [List.mem_cons] at hd
          rcases hd with h1 | h2 | h3
          · exact absurd h1 (by simp)
          · injection h2
          · exact h30 d h3

/-- Helper: when no observed status is ever terminal, the wait loop never
exits, whatever the fuel. -/
theorem pollLoop_no_terminal (name : String)
    (calls : Nat → Except ClientError StatusResponse)
    (h : ∀ i, get_transcription_job_status (calls i) ≠ some "COMPLETED" ∧
      get_transcription_job_status (calls i) ≠ some "FAILED") :
    ∀ fuel k, (pollLoop name calls fuel k).2 = none := by
  intro fuel
  induction fuel with
  | zero => intro k; rfl
  | succ n ih =>
    intro k
    simp only [pollLoop, pollStep, (h k).1, (h k).2, if_neg]
    exact ih (k + 1)

/-- C1: for every sequence of statuses returned by the status queries, the
wait loop exits with success only upon observing `'COMPLETED'`, exits with
failure only upon observing `'FAILED'`, sleeps a fixed 30-second interval
and re-queries on every other observed status (one sleep per non-terminal
observation, one query per observation, every sleep exactly 30), and has
no iteration bound: when no terminal status is ever observed it never
exits, whatever the fuel. -/
theorem poller_exits_only_on_terminal (name : String)
    (calls : Nat → Except ClientError StatusResponse) :
    (∀ fuel evs b, pollLoop name calls fuel 0 = (evs, some b) →
      ∃ i, (b = true → get_transcription_job_status (calls i) = some "COMPLETED") ∧
        (b = false → get_transcription_job_status (calls i) = some "FAILED") ∧
        (∀ j, j < i →
          get_transcription_job_status (calls j) ≠ some "COMPLETED" ∧
          get_transcription_job_status (calls j) ≠ some "FAILED") ∧
        evs.countP (fun e => e.isSleep) = i ∧
        evs.countP (fun e => e.isQuery) = i + 1 ∧
        (∀ d, Event.sleep d ∈ evs → d = 30)) ∧
    ((∀ i, get_transcription_job_status (calls i) ≠ some "COMPLETED" ∧
        get_transcription_job_status (calls i) ≠ some "FAILED") →
      ∀ fuel, (pollLoop name calls fuel 0).2 = none) := by
  constructor
  · intro fuel evs b h
    obtain ⟨i, _, hc, hf, hnon, hs, hq, h30⟩ :=
      pollLoop_terminal name calls fuel 0 evs b h
    exact ⟨i, hc, hf, fun j hj => hnon j (Nat.zero_le j) hj,
      by simpa using hs, by simpa using hq, h30⟩
  · exact fun h fuel => pollLoop_no_terminal name calls h fuel 0

/-- A mock status sequence: `IN_PROGRESS, IN_PROGRESS, COMPLETED, ...`. -/
def demoStatusCalls : Nat → Except ClientError StatusResponse :=
  fun k => if k < 2 then .ok ⟨"IN_PROGRESS"⟩ else .ok ⟨"COMPLETED"⟩

/-- Witness for C1 on the mock status sequence
`[IN_PROGRESS, IN_PROGRESS, COMPLETED]` with fuel 10. -/
theorem poller_exits_only_on_terminal_witness :
    ∃ i, (true = true → get_transcription_job_status (demoStatusCalls i) = some "COMPLETED") ∧
      (true = false → get_transcription_job_status (demoStatusCalls i) = some "FAILED") ∧
      (∀ j, j < i →
        get_transcription_job_status (demoStatusCalls j) ≠ some "COMPLETED" ∧
        get_transcription_job_status (demoStatusCalls j) ≠ some "FAILED") ∧
      List.countP (fun e => e.isSleep)
        [Event.queryStatus "call_demo", Event.sleep 30, Event.queryStatus "call_demo",
          Event.sleep 30, Event.queryStatus "call_demo"] = i ∧
      List.countP (fun e => e.isQuery)
        [Event.queryStatus "call_demo", Event.sleep 30, Event.queryStatus "call_demo",
          Event.sleep 30, Event.queryStatus "call_demo"] = i + 1 ∧
      (∀ d, Event.sleep d ∈
        [Event.queryStatus "call_demo", Event.sleep 30, Event.queryStatus "call_demo",
          Event.sleep 30, Event.queryStatus "call_demo"] → d = 30) :=
  (poller_exits_only_on_terminal "call_demo" demoStatusCalls).1 10
    [Event.queryStatus "call_demo", Event.sleep 30, Event.queryStatus "call_demo",
      Event.sleep 30, Event.queryStatus "call_demo"] true rfl

/-- C10: a transport error during a status query is returned as `None`;
the loop body treats `None` exactly like a non-terminal status (sleep 30,
re-query); the only statuses that end the loop are `'COMPLETED'` and
`'FAILED'`; hence when every query raises a `ClientError` the loop never
terminates and never aborts, whatever the fuel. -/
theorem transport_error_polls_forever (name : String) :
    (∀ e, get_transcription_job_status (.error e) = none) ∧
    pollStep none = .sleepRetry 30 ∧
    (∀ st, pollStep st ≠ .sleepRetry 30 →
      st = some "COMPLETED" ∨ st = some "FAILED") ∧
    (∀ errs : Nat → ClientError, ∀ fuel k,
      (pollLoop name (fun i => .error (errs i)) fuel k).2 = none) := by
  refine ⟨fun e => rfl, rfl, ?_, ?_⟩
  · intro st h
    by_cases hC : st = some "COMPLETED"
    · exact Or.inl hC
    by_cases hF : st = some "FAILED"
    · exact Or.inr hF
    exact absurd (pollStep_other hC hF) h
  · intro errs fuel k
    exact pollLoop_no_terminal name (fun i => .error (errs i))
      (fun i => ⟨by simp [get_transcription_job_status],
        by simp [get_transcription_job_status]⟩) fuel k

/-- Witness for C10: the exit-implies-terminal conjunct applied at the
concrete status `'COMPLETED'`. -/
theorem transport_error_polls_forever_witness :
    some "COMPLETED" = some "COMPLETED" ∨ (some "COMPLETED" : Option String) = some "FAILED" :=
  (transport_error_polls_forever "call_demo").2.2.1 (some "COMPLETED") (by decide)

/-- C4: a transport/auth error from the S3 upload call makes `upload_file`
return `False` rather than propagate; on that failure the driver aborts at
once: the run's outcome is the upload failure, the filesystem is
untouched, and the event trace is exactly the single upload attempt — no
job submission, no status query, no download, no retry. -/
theorem upload_error_aborts_run (envVars : String → Option String)
    (input_file output_file timestamp : String) (env : Env) (fuel : Nat) (fs : FS) :
    (∀ e, upload_file (.error e) = false) ∧
    (upload_file env.uploadCall = false →
      (mainRun envVars input_file output_file timestamp env fuel fs).outcome =
        .uploadFailed ∧
      (mainRun envVars input_file output_file timestamp env fuel fs).fs = fs ∧
      (mainRun envVars input_file output_file timestamp env fuel fs).events =
        [.s3Upload s3_bucket_name ("raw_audio/" ++ basename input_file)]) := by
  refine ⟨fun e => rfl, fun h => ?_⟩
  unfold mainRun
  rw [if_neg (by decide : ¬(s3_bucket_name = "")), h]
  exact ⟨rfl, rfl, rfl⟩

/-- The empty filesystem. -/
def emptyFS : FS := fun _ => none

/-- An empty process environment. -/
def noEnvVars : String → Option String := fun _ => none

/-- An environment whose S3 upload call raises a `ClientError`. -/
def failUploadEnv : Env :=
  ⟨.error ⟨"AccessDenied"⟩, .ok ⟨"call_20240101"⟩, demoStatusCalls, .ok (), helloDoc⟩

/-- Witness for C4: a run whose upload raises `AccessDenied`. -/
theorem upload_error_aborts_run_witness :
    (mainRun noEnvVars "call.m4a" "out.txt" "20240101" failUploadEnv 10 emptyFS).outcome =
      .uploadFailed ∧
    (mainRun noEnvVars "call.m4a" "out.txt" "20240101" failUploadEnv 10 emptyFS).fs =
      emptyFS ∧
    (mainRun noEnvVars "call.m4a" "out.txt" "20240101" failUploadEnv 10 emptyFS).events =
      [.s3Upload s3_bucket_name ("raw_audio/" ++ basename "call.m4a")] :=
  (upload_error_aborts_run noEnvVars "call.m4a" "out.txt" "20240101"
    failUploadEnv 10 emptyFS).2 rfl

/-- C5: `start_transcription_job` returns the response's job name on
success and `None` on any client error; the driver treats `None` as
fatal: the run ends at the submit stage with the filesystem untouched and
an event trace of exactly the upload and the submit attempt — the poll
loop and all later stages are never entered. -/
theorem submit_none_is_fatal (envVars : String → Option String)
    (input_file output_file timestamp : String) (env : Env) (fuel : Nat) (fs : FS) :
    (∀ r, start_transcription_job (.ok r) = some r.transcriptionJobName) ∧
    (∀ e, start_transcription_job (.error e) = none) ∧
    (upload_file env.uploadCall = true →
      start_transcription_job env.submitCall = none →
      (mainRun envVars input_file output_file timestamp env fuel fs).outcome =
        .submitFailed ∧
      (mainRun envVars input_file output_file timestamp env fuel fs).fs = fs ∧
      (mainRun envVars input_file output_file timestamp env fuel fs).events =
        [.s3Upload s3_bucket_name ("raw_audio/" ++ basename input_file),
          .submitJob (deriveJobName input_file timestamp)
            ("s3://" ++ s3_bucket_name ++ "/" ++ ("raw_audio/" ++ basename input_file))
            s3_bucket_name
            ("raw_audio_transcriptions/" ++ deriveJobName input_file timestamp ++ ".json")]) := by
  refine ⟨fun r => rfl, fun e => rfl, fun hup hsub => ?_⟩
  unfold mainRun
  rw [if_neg (by decide : ¬(s3_bucket_name = "")), hup, hsub]
  exact ⟨rfl, rfl, rfl⟩

/-- An environment whose submit call raises a `ClientError`. -/
def failSubmitEnv : Env :=
  ⟨.ok (), .error ⟨"BadRequestException"⟩, demoStatusCalls, .ok (), helloDoc⟩

/-- Witness for C5: a run whose job submission raises a client error. -/
theorem submit_none_is_fatal_witness :
    (mainRun noEnvVars "call.m4a" "out.txt" "20240101" failSubmitEnv 10 emptyFS).outcome =
      .submitFailed ∧
    (mainRun noEnvVars "call.m4a" "out.txt" "20240101" failSubmitEnv 10 emptyFS).fs =
      emptyFS ∧
    (mainRun noEnvVars "call.m4a" "out.txt" "20240101" failSubmitEnv 10 emptyFS).events =
      [.s3Upload s3_bucket_name ("raw_audio/" ++ basename "call.m4a"),
        .submitJob (deriveJobName "call.m4a" "20240101")
          ("s3://" ++ s3_bucket_name ++ "/" ++ ("raw_audio/" ++ basename "call.m4a"))
          s3_bucket_name
          ("raw_audio_transcriptions/" ++ deriveJobName "call.m4a" "20240101" ++ ".json")] :=
  (submit_none_is_fatal noEnvVars "call.m4a" "out.txt" "20240101"
    failSubmitEnv 10 emptyFS).2.2 rfl rfl

/-- C9: the bucket name is the hardcoded non-empty literal `'sat-ddc'`, so
the `S3_BUCKET_NAME`-unset error branch is unreachable: the driver's
result is independent of the process environment (no environment variable
is ever read) and no run ends in the bucket-unset outcome. -/
theorem bucket_check_always_passes (ev1 ev2 : String → Option String)
    (input_file output_file timestamp : String) (env : Env) (fuel : Nat) (fs : FS) :
    s3_bucket_name = "sat-ddc" ∧
    (s3_bucket_name == "") = false ∧
    mainRun ev1 input_file output_file timestamp env fuel fs =
      mainRun ev2 input_file output_file timestamp env fuel fs ∧
    ((mainRun ev1 input_file output_file timestamp env fuel fs).outcome ==
      Outcome.bucketUnset) = false := by
  refine ⟨rfl, rfl, rfl, ?_⟩
  unfold mainRun
  rw [if_neg (by decide : ¬(s3_bucket_name = ""))]
  repeat' split
  all_goals rfl

/-- Helper: appending `".json"` changes a path, so the temporary download
path never collides with the final output path. -/
theorem append_json_ne (p : String) : p ++ ".json" ≠ p := by
  intro h
  have hlen := congrArg String.length h
  rw [String.length_append] at hlen
  have h5 : (".json" : String).length = 5 := rfl
  rw [h5] at hlen
  omega

/-- C6: in every run where the result document is downloaded successfully
and the transcript extracted (the end-to-end success scenario), the run
succeeds, the transient downloaded file at `output path + ".json"` no
longer exists afterwards, and the output file holds the transcript. -/
theorem success_run_removes_temp_file (envVars : String → Option String)
    (input_file output_file timestamp job_name : String) (pollEvs : List Event)
    (env : Env) (fuel : Nat) (fs : FS) (s : String)
    (hup : upload_file env.uploadCall = true)
    (hsub : start_transcription_job env.submitCall = some job_name)
    (hpoll : pollLoop job_name env.statusCalls fuel 0 = (pollEvs, some true))
    (hdl : download_file env.downloadCall = true)
    (hex : transcriptPath env.resultDoc = .ok (.str s)) :
    (mainRun envVars input_file output_file timestamp env fuel fs).outcome = .success ∧
    (mainRun envVars input_file output_file timestamp env fuel fs).fs
      (output_file ++ ".json") = none ∧
    (mainRun envVars input_file output_file timestamp env fuel fs).fs
      output_file = some (.text s) := by
  have hload : jsonLoad (fsWrite fs (output_file ++ ".json") (.json env.resultDoc))
      (output_file ++ ".json") = .ok env.resultDoc := by
    unfold jsonLoad fsWrite
    simp
  have hext : extract_raw_transcript
      (fsWrite fs (output_file ++ ".json") (.json env.resultDoc))
      (output_file ++ ".json") output_file
      = (none, fsWrite (fsWrite fs (output_file ++ ".json") (.json env.resultDoc))
          output_file (.text s)) := by
    simp only [extract_raw_transcript, hload, hex]
  have hbn : (s3_bucket_name = "") = False := eq_false (by decide)
  simp only [mainRun, hbn, if_false, hup, hsub, hpoll, hdl, hext]
  refine ⟨trivial, ?_, ?_⟩
  · show fsRemove _ (output_file ++ ".json") (output_file ++ ".json") = none
    simp [fsRemove]
  · show fsRemove _ (output_file ++ ".json") output_file = some (.text s)
    simp [fsRemove, fsWrite, (append_json_ne output_file).symm]

/-- The all-success mock environment of the end-to-end scenario: upload
and download succeed, submit returns `call_20240101`, statuses are
`IN_PROGRESS, IN_PROGRESS, COMPLETED`, and the result document is
`helloDoc`. -/
def demoEnv : Env :=
  ⟨.ok (), .ok ⟨"call_20240101"⟩, demoStatusCalls, .ok (), helloDoc⟩

/-- Witness for C6: the mocked end-to-end run on `call.m4a`. -/
theorem success_run_removes_temp_file_witness :
    (mainRun noEnvVars "call.m4a" "out.txt" "20240101" demoEnv 10 emptyFS).outcome =
      .success ∧
    (mainRun noEnvVars "call.m4a" "out.txt" "20240101" demoEnv 10 emptyFS).fs
      ("out.txt" ++ ".json") = none ∧
    (mainRun noEnvVars "call.m4a" "out.txt" "20240101" demoEnv 10 emptyFS).fs
      "out.txt" = some (.text "hello world") :=
  success_run_removes_temp_file noEnvVars "call.m4a" "out.txt" "20240101"
    "call_20240101"
    [Event.queryStatus "call_20240101", Event.sleep 30, Event.queryStatus "call_20240101",
      Event.sleep 30, Event.queryStatus "call_20240101"]
    demoEnv 10 emptyFS "hello world" rfl rfl rfl rfl rfl

/-- Helper: a character that does not occur has no last index. -/
theorem lastIdxOf_eq_none {cs : List Char} {c : Char} (h : c ∉ cs) :
    lastIdxOf cs c = none := by
  induction cs with
  | nil => rfl
  | cons x xs ih =>
    simp only [List.mem_cons, not_or] at h
    unfold lastIdxOf
    rw [ih h.2]
    rw [if_neg (fun heq => h.1 heq.symm)]

/-- Helper: a path without `'/'` is its own basename. -/
theorem basename_of_no_slash {p : String} (h : '/' ∉ p.data) : basename p = p := by
  unfold basename
  rw [lastIdxOf_eq_none h]

/-- Helper: dropping the extension only removes characters. -/
theorem splitextRoot_chars (p : String) :
    ∀ c ∈ (splitextRoot p).data, c ∈ p.data := by
  intro c hc
  simp only [splitextRoot] at hc
  split at hc
  · exact hc
  · split at hc
    · exact List.take_subset _ _ hc
    · exact hc

/-- A character that is safe in object keys, job names and paths:
alphanumeric or one of `'_'`, `'-'`, `'.'`. -/
def pathSafeChar (c : Char) : Bool :=
  c.isAlphanum || c = '_' || c = '-' || c = '.'

/-- A typical input filename: nonempty and made of path-safe characters
(so in particular no `'/'`). -/
def typicalFilename (p : String) : Bool :=
  p.data.all pathSafeChar

/-- A `strftime("%Y%m%d%H%M%S")` timestamp: digits only. -/
def digitTimestamp (t : String) : Bool :=
  t.data.all (fun c => c.isDigit)

/-- C7: the job name derived by the driver is a deterministic function of
the pair (input filename, timestamp), equals the input basename with its
extension removed followed by `'_'` and the timestamp, and for typical
filenames and digit timestamps contains no path-unsafe character. -/
theorem job_name_derivation (p₁ p₂ t₁ t₂ p t : String) :
    (p₁ = p₂ → t₁ = t₂ → deriveJobName p₁ t₁ = deriveJobName p₂ t₂) ∧
    deriveJobName p t = splitextRoot (basename p) ++ "_" ++ t ∧
    (typicalFilename p = true → digitTimestamp t = true →
      ∀ c ∈ (deriveJobName p t).data, pathSafeChar c = true) := by
  refine ⟨fun hp ht => by rw [hp, ht], rfl, fun htyp hts c hc => ?_⟩
  have hsafe : ∀ ch ∈ p.data, pathSafeChar ch = true := by
    simpa [typicalFilename, List.all_eq_true] using htyp
  have hnoslash : '/' ∉ p.data := by
    intro hmem
    have := hsafe '/' hmem
    simp [pathSafeChar] at this
  have hdata : (deriveJobName p t).data =
      (splitextRoot (basename p)).data ++ '_' :: t.data := by
    show (splitextRoot (basename p) ++ "_" ++ t).data = _
    rw [String.data_append, String.data_append, List.append_assoc]
    rfl
  rw [hdata] at hc
  rcases List.mem_append.mp hc with hroot | hrest
  · have : c ∈ (basename p).data := splitextRoot_chars (basename p) c hroot
    rw [basename_of_no_slash hnoslash] at this
    exact hsafe c this
  · rcases List.mem_cons.mp hrest with hu | ht'
    · rw [hu]; rfl
    · have hdig : c.isDigit = true := by
        have := List.all_eq_true.mp hts c ht'
        simpa using this
      simp [pathSafeChar, Char.isAlphanum, hdig]

/-- Witness for C7: the derivation on `call.m4a` at timestamp
`20240101120000`. -/
theorem job_name_derivation_witness :
    deriveJobName "call.m4a" "20240101120000" =
      splitextRoot (basename "call.m4a") ++ "_" ++ "20240101120000" ∧
    ∀ c ∈ (deriveJobName "call.m4a" "20240101120000").data, pathSafeChar c = true :=
  ⟨(job_name_derivation "call.m4a" "call.m4a" "20240101120000" "20240101120000"
      "call.m4a" "20240101120000").2.1,
    (job_name_derivation "call.m4a" "call.m4a" "20240101120000" "20240101120000"
      "call.m4a" "20240101120000").2.2 rfl rfl⟩

/-- Helper: the wait loop emits only query and sleep events. -/
theorem pollLoop_events_query_or_sleep (name : String)
    (calls : Nat → Except ClientError StatusResponse) :
    ∀ fuel k, ∀ e ∈ (pollLoop name calls fuel k).1,
      (e.isQuery || e.isSleep) = true := by
  intro fuel
  induction fuel with
  | zero => intro k e he; simp [pollLoop] at he
  | succ n ih =>
    intro k e he
    rw [pollLoop_succ] at he
    cases hps : pollStep (get_transcription_job_status (calls k)) with
    | exitSuccess =>
      rw [hps] at he
      simp only [List.mem_singleton] at he
      rw [he]; rfl
    | exitFailure =>
      rw [hps] at he
      simp only [List.mem_singleton] at he
      rw [he]; rfl
    | sleepRetry d =>
      rw [hps] at he
      simp only [List.mem_cons] at he
      rcases he with h1 | h2 | h3
      · rw [h1]; rfl
      · rw [h2]; rfl
      · exact ih (k + 1) e h3

/-- Helper: any predicate false on query and sleep events counts zero
occurrences in a wait-loop trace. -/
theorem pollLoop_countP_zero (name : String)
    (calls : Nat → Except ClientError StatusResponse) (fuel k : Nat)
    (p : Event → Bool) (hp : ∀ e, (e.isQuery || e.isSleep) = true → p e = false) :
    (pollLoop name calls fuel k).1.countP p = 0 := by
  rw [List.countP_eq_zero]
  intro a ha
  have hqs := pollLoop_events_query_or_sleep name calls fuel k a ha
  simp [hp a hqs]

/-- Helper: download events never occur in a wait-loop trace. -/
theorem pollLoop_no_download (name : String)
    (calls : Nat → Except ClientError StatusResponse) (fuel k : Nat) :
    (pollLoop name calls fuel k).1.countP (fun e => e.isDownload) = 0 := by
  refine pollLoop_countP_zero name calls fuel k _ (fun e he => ?_)
  cases e <;> first
    | rfl
    | simp [Event.isQuery, Event.isSleep] at he

/-- Helper: local-delete events never occur in a wait-loop trace. -/
theorem pollLoop_no_local_delete (name : String)
    (calls : Nat → Except ClientError StatusResponse) (fuel k : Nat) :
    (pollLoop name calls fuel k).1.countP (fun e => e.isLocalDelete) = 0 := by
  refine pollLoop_countP_zero name calls fuel k _ (fun e he => ?_)
  cases e <;> first
    | rfl
    | simp [Event.isQuery, Event.isSleep] at he

/-- Helper: remote-delete events never occur in a wait-loop trace. -/
theorem pollLoop_no_remote_delete (name : String)
    (calls : Nat → Except ClientError StatusResponse) (fuel k : Nat) :
    (pollLoop name calls fuel k).1.countP (fun e => e.isRemoteDelete) = 0 := by
  refine pollLoop_countP_zero name calls fuel k _ (fun e he => ?_)
  cases e <;> first
    | rfl
    | simp [Event.isQuery, Event.isSleep] at he

/-- C8: the workflow performs no compensating action.  No run ever emits
a remote-delete event (the uploaded object is never cleaned up), and each
later-stage failure short-circuits the rest: a submit failure leaves a
run with no query, no download and an untouched filesystem; a FAILED job
status aborts with no download and an untouched filesystem; a download
failure aborts with no local cleanup and an untouched filesystem. -/
theorem no_compensation_on_failure (envVars : String → Option String)
    (input_file output_file timestamp : String) (env : Env) (fuel : Nat) (fs : FS) :
    ((mainRun envVars input_file output_file timestamp env fuel fs).events.countP
      (fun e => e.isRemoteDelete) = 0) ∧
    (upload_file env.uploadCall = true →
      (start_transcription_job env.submitCall = none →
        (mainRun envVars input_file output_file timestamp env fuel fs).events.countP
          (fun e => e.isQuery) = 0 ∧
        (mainRun envVars input_file output_file timestamp env fuel fs).events.countP
          (fun e => e.isDownload) = 0 ∧
        (mainRun envVars input_file output_file timestamp env fuel fs).fs = fs) ∧
      (∀ job_name pollEvs, start_transcription_job env.submitCall = some job_name →
        pollLoop job_name env.statusCalls fuel 0 = (pollEvs, some false) →
        (mainRun envVars input_file output_file timestamp env fuel fs).outcome =
          .jobFailed ∧
        (mainRun envVars input_file output_file timestamp env fuel fs).events.countP
          (fun e => e.isDownload) = 0 ∧
        (mainRun envVars input_file output_file timestamp env fuel fs).fs = fs) ∧
      (∀ job_name pollEvs, start_transcription_job env.submitCall = some job_name →
        pollLoop job_name env.statusCalls fuel 0 = (pollEvs, some true) →
        download_file env.downloadCall = false →
        (mainRun envVars input_file output_file timestamp env fuel fs).outcome =
          .downloadFailed ∧
        (mainRun envVars input_file output_file timestamp env fuel fs).events.countP
          (fun e => e.isLocalDelete) = 0 ∧
        (mainRun envVars input_file output_file timestamp env fuel fs).fs = fs)) := by
  have hbn : (s3_bucket_name = "") = False := eq_false (by decide)
  constructor
  · cases hup : upload_file env.uploadCall with
    | false => simp only [mainRun, hbn, if_false, hup]; rfl
    | true =>
      cases hsub : start_transcription_job env.submitCall with
      | none => simp only [mainRun, hbn, if_false, hup, hsub]; rfl
      | some jn =>
        rcases hpoll : pollLoop jn env.statusCalls fuel 0 with ⟨pollEvs, r⟩
        have hz : pollEvs.countP (fun e => e.isRemoteDelete) = 0 := by
          have h0 := pollLoop_no_remote_delete jn env.statusCalls fuel 0
          rw [hpoll] at h0
          exact h0
        match r with
        | none =>
          simp only [mainRun, hbn, if_false, hup, hsub, hpoll]
          simp only [List.countP_cons, List.countP_append, List.countP_nil, hz]
          rfl
        | some false =>
          simp only [mainRun, hbn, if_false, hup, hsub, hpoll]
          simp only [List.countP_cons, List.countP_append, List.countP_nil, hz]
          rfl
        | some true =>
          cases hdl : download_file env.downloadCall with
          | false =>
            simp only [mainRun, hbn, if_false, hup, hsub, hpoll, hdl]
            simp only [List.countP_cons, List.countP_append, List.countP_nil, hz]
            rfl
          | true =>
            rcases hext : extract_raw_transcript
              (fsWrite fs (output_file ++ ".json") (.json env.resultDoc))
              (output_file ++ ".json") output_file with ⟨oe, fs2⟩
            match oe with
            | some e =>
              simp only [mainRun, hbn, if_false, hup, hsub, hpoll, hdl, hext]
              simp only [List.countP_cons, List.countP_append, List.countP_nil, hz]
              rfl
            | none =>
              simp only [mainRun, hbn, if_false, hup, hsub, hpoll, hdl, hext]
              simp only [List.countP_cons, List.countP_append, List.countP_nil, hz]
              rfl
  · intro hup
    refine ⟨fun hsub => ?_, fun job_name pollEvs hsub hpoll => ?_,
      fun job_name pollEvs hsub hpoll hdl => ?_⟩
    · simp only [mainRun, hbn, if_false, hup, hsub]
      exact ⟨rfl, rfl, trivial⟩
    · have hz : pollEvs.countP (fun e => e.isDownload) = 0 := by
        have h0 := pollLoop_no_download job_name env.statusCalls fuel 0
        rw [hpoll] at h0
        exact h0
      simp only [mainRun, hbn, if_false, hup, hsub, hpoll]
      refine ⟨trivial, ?_, trivial⟩
      simp only [List.countP_cons, List.countP_append, List.countP_nil, hz]
      rfl
    · have hz : pollEvs.countP (fun e => e.isLocalDelete) = 0 := by
        have h0 := pollLoop_no_local_delete job_name env.statusCalls fuel 0
        rw [hpoll] at h0
        exact h0
      simp only [mainRun, hbn, if_false, hup, hsub, hpoll, hdl]
      refine ⟨trivial, ?_, trivial⟩
      simp only [List.countP_cons, List.countP_append, List.countP_nil, hz]
      rfl

/-- An environment whose S3 download call raises a `ClientError`. -/
def failDownloadEnv : Env :=
  ⟨.ok (), .ok ⟨"call_20240101"⟩, demoStatusCalls, .error ⟨"NoSuchKey"⟩, helloDoc⟩

/-- Witness for C8: a run whose download raises `NoSuchKey` after a
successful upload, submit and poll. -/
theorem no_compensation_on_failure_witness :
    (mainRun noEnvVars "call.m4a" "out.txt" "20240101" failDownloadEnv 10 emptyFS).outcome =
      .downloadFailed ∧
    (mainRun noEnvVars "call.m4a" "out.txt" "20240101" failDownloadEnv 10 emptyFS).events.countP
      (fun e => e.isLocalDelete) = 0 ∧
    (mainRun noEnvVars "call.m4a" "out.txt" "20240101" failDownloadEnv 10 emptyFS).fs =
      emptyFS :=
  ((no_compensation_on_failure noEnvVars "call.m4a" "out.txt" "20240101"
      failDownloadEnv 10 emptyFS).2 rfl).2.2 "call_20240101"
    [Event.queryStatus "call_20240101", Event.sleep 30, Event.queryStatus "call_20240101",
      Event.sleep 30, Event.queryStatus "call_20240101"] rfl rfl rfl

/-- A document whose `results` object has no `transcripts` field. -/
def noTranscriptsDoc : Json := .obj [("results", .obj [("language", .str "en-US")])]

/-- A filesystem holding `noTranscriptsDoc` at `"bad.json"`. -/
def noTranscriptsFS : FS :=
  fun p => if p = "bad.json" then some (.json noTranscriptsDoc) else none

/-- Witness for C3 at the concrete document
`{"results":{"language":"en-US"}}`. -/
theorem extract_error_on_missing_path_witness :
    (extract_raw_transcript noTranscriptsFS "bad.json" "out.txt").1.isSome = true ∧
    (extract_raw_transcript noTranscriptsFS "bad.json" "out.txt").2 = noTranscriptsFS :=
  extract_error_on_missing_path noTranscriptsFS "bad.json" "out.txt"
    noTranscriptsDoc rfl rfl

end Transcribe
